import Mathlib

/-!
# Verification of `src/observations/sose_data.py` (LESbrary.jl)

A shallow embedding, in Lean 4, of the SOSE data-access module:

* `get_times`            — decodes a raw seconds-since-epoch time axis to calendar
  timestamps via Python's `datetime.utcfromtimestamp`;
* `get_scalar_time_series` / `get_profile_time_series` — positional time slicing
  plus nearest-neighbour selection of a named variable, with the
  `UVEL/oceTAUX` → (XG, YC), `VVEL/oceTAUY` → (XC, YG), otherwise (XC, YC)
  coordinate routing;
* `compute_geostrophic_velocities` — the thermal-wind pipeline: reverse the
  vertical axis, slice the time window, attach the `drW`/`drS`/`drC` vertical
  metrics to the (reindexed) dataset, take horizontal derivatives of Θ and S,
  cumulatively integrate them bottom-up, combine them into buoyancy-gradient
  integrals with the linear equation of state, and apply thermal-wind balance
  around bottom-referenced velocities.

Numeric values are modelled as rationals (`ℚ`); machine floating point is out of
scope.  Coordinate labels are rationals; the time axis carries 64-bit integer
elapsed seconds, modelled as `Int`.  Mutation of Python objects is modelled with
an explicit store (list of datasets addressed by reference index), so that the
frame behaviour of `compute_geostrophic_velocities` — which rebinds its local
`ds` to the dataset returned by `reindex` before attaching the metric fields —
is faithfully visible.
-/

namespace SoseData

/-! ## Definitions: calendar arithmetic

The source calls `datetime.utcfromtimestamp` (Python standard library).  We
model it on whole seconds by the proleptic-Gregorian conversion that CPython's
`datetime` module itself uses (`_ord2ymd` / `_ymd2ord`: successive divmod by
the 400-year / 100-year / 4-year / 1-year cycle lengths, then a month table),
returning `none` outside `datetime`'s supported range (years 1–9999), where
Python raises an exception. -/

/-- `datetime._is_leap`: proleptic Gregorian leap-year test. -/
def isLeap (y : ℕ) : Bool :=
  decide (y % 4 = 0 ∧ (y % 100 ≠ 0 ∨ y % 400 = 0))

/-- `datetime._DAYS_BEFORE_MONTH` plus the leap-day bump for months after
February (CPython `_days_before_month`). -/
def daysBeforeMonth (leap : Bool) (m : ℕ) : ℕ :=
  (if m = 1 then 0 else if m = 2 then 31 else if m = 3 then 59 else if m = 4 then 90
    else if m = 5 then 120 else if m = 6 then 151 else if m = 7 then 181
    else if m = 8 then 212 else if m = 9 then 243 else if m = 10 then 273
    else if m = 11 then 304 else if m = 12 then 334 else 0)
  + (if 2 < m ∧ leap = true then 1 else 0)

/-- `datetime._DAYS_IN_MONTH` with the leap adjustment for February. -/
def daysInMonth (leap : Bool) (m : ℕ) : ℕ :=
  if m = 1 then 31 else if m = 2 then (if leap then 29 else 28) else if m = 3 then 31
  else if m = 4 then 30 else if m = 5 then 31 else if m = 6 then 30 else if m = 7 then 31
  else if m = 8 then 31 else if m = 9 then 30 else if m = 10 then 31 else if m = 11 then 30
  else if m = 12 then 31 else 0

/-- The month-and-day estimate/correction step of CPython `_ord2ymd`, applied to a
0-based day-of-year `n`: `month = (n + 50) >> 5`, then correct downward by one
month when the estimate overshoots. -/
def monthDayOfDoy (leap : Bool) (n : ℕ) : ℕ × ℕ :=
  let month := (n + 50) / 32
  let preceding := daysBeforeMonth leap month
  if n < preceding then
    let month1 := month - 1
    let preceding1 := preceding - daysInMonth leap month1
    (month1, n - preceding1 + 1)
  else
    (month, n - preceding + 1)

/-- CPython `datetime._ord2ymd` on the 0-based day count `n` (so `n = 0` is
0001-01-01): peel off 400-year, 100-year, 4-year and 1-year cycles, handle the
two last-day-of-a-leap-year corner cases, then look up month and day. -/
def ord2ymd (n : ℕ) : ℕ × ℕ × ℕ :=
  let n400 := n / 146097
  let r400 := n % 146097
  let n100 := r400 / 36524
  let r100 := r400 % 36524
  let n4 := r100 / 1461
  let r4 := r100 % 1461
  let n1 := r4 / 365
  let r1 := r4 % 365
  let year := 400 * n400 + 100 * n100 + 4 * n4 + n1 + 1
  if n1 = 4 ∨ n100 = 4 then
    (year - 1, 12, 31)
  else
    let leapyear := decide (n1 = 3 ∧ (n4 ≠ 24 ∨ n100 = 3))
    (year, (monthDayOfDoy leapyear r1).1, (monthDayOfDoy leapyear r1).2)

/-- CPython `datetime._days_before_year`. -/
def daysBeforeYear (year : ℕ) : ℕ :=
  (year - 1) * 365 + (year - 1) / 4 - (year - 1) / 100 + (year - 1) / 400

/-- CPython `datetime._ymd2ord`: the proleptic-Gregorian ordinal of a date
(ordinal 1 = 0001-01-01). -/
def ymd2ord (year month day : ℕ) : ℕ :=
  daysBeforeYear year + daysBeforeMonth (isLeap year) month + day

/-- A calendar timestamp, as carried by a Python `datetime.datetime`
(whole seconds; the module only ever decodes whole seconds). -/
structure DateTime where
  year : ℕ
  month : ℕ
  day : ℕ
  hour : ℕ
  minute : ℕ
  second : ℕ
deriving DecidableEq, Repr

/-- Proleptic-Gregorian ordinal of the Unix epoch day 1970-01-01, computed by
the model itself (= 719163). -/
def epochOrdinal : ℕ := ymd2ord 1970 1 1

/-- Smallest timestamp `datetime.utcfromtimestamp` can decode:
0001-01-01T00:00:00 (`datetime.min`). -/
def pyMinTs : Int := 86400 * (1 - (epochOrdinal : Int))

/-- Largest whole-second timestamp `datetime.utcfromtimestamp` can decode:
9999-12-31T23:59:59 (`datetime.max`). -/
def pyMaxTs : Int := 86400 * ((ymd2ord 9999 12 31 : Int) - epochOrdinal) + 86399

/-- Model of Python `datetime.utcfromtimestamp` on whole seconds: split the
timestamp into days and second-of-day (floor division, as Python does), convert
the day count to a calendar date, the second-of-day to a time of day.  Outside
`datetime`'s supported years 1–9999 Python raises; that is `none` here. -/
def datetime_utcfromtimestamp (t : Int) : Option DateTime :=
  if pyMinTs ≤ t ∧ t ≤ pyMaxTs then
    let sod : ℕ := (t % 86400).toNat
    let nday : ℕ := (t / 86400 + (epochOrdinal : Int) - 1).toNat
    let c := ord2ymd nday
    some ⟨c.1, c.2.1, c.2.2, sod / 3600, sod % 3600 / 60, sod % 60⟩
  else none

/-- The instant a `DateTime` denotes, in seconds since the Unix epoch. -/
def DateTime.toEpochSeconds (x : DateTime) : Int :=
  86400 * ((ymd2ord x.year x.month x.day : Int) - epochOrdinal)
    + (x.hour : Int) * 3600 + (x.minute : Int) * 60 + (x.second : Int)

/-- Chronological order on timestamps (Python `datetime` comparison orders by
the instant denoted). -/
def DateTime.le (x y : DateTime) : Prop :=
  x.toEpochSeconds ≤ y.toEpochSeconds

instance : DecidableRel DateTime.le := fun x y =>
  inferInstanceAs (Decidable (x.toEpochSeconds ≤ y.toEpochSeconds))

/-- 1970-01-01T00:00:00Z. -/
def epoch1970 : DateTime := ⟨1970, 1, 1, 0, 0, 0⟩

/-! ## Definitions: datasets, point extractor, time decoder

A merged xarray dataset is modelled as a name-keyed list of variables over a
(time, Y, X) index grid, together with the four horizontal coordinate arrays
(cell-center `XC`/`YC` and cell-edge `XG`/`YG`) and the raw time axis (64-bit
elapsed seconds since the Unix epoch, kept undecoded as in
`open_sose_3d_datasets(..., decode_cf=False)`).  A variable's values live in an
arbitrary type `V` (`ℚ` for a surface field, `Fin (nz+1) → ℚ` for a profile
field): the extractor moves values around without inspecting them.  Axis sizes
are written as successors so that every axis is nonempty. -/

structure VarDataset (nt ny nx : ℕ) (V : Type) where
  vars : List (String × (Fin (nt + 1) → Fin (ny + 1) → Fin (nx + 1) → V))
  XC : Fin (nx + 1) → ℚ
  XG : Fin (nx + 1) → ℚ
  YC : Fin (ny + 1) → ℚ
  YG : Fin (ny + 1) → ℚ
  time : Fin (nt + 1) → Int

/-- Index of the grid point whose coordinate is closest to `x` — xarray
`.sel(..., method="nearest")`.  The first minimiser wins ties. -/
def nearestIdx {n : ℕ} (coord : Fin (n + 1) → ℚ) (x : ℚ) : Fin (n + 1) :=
  (List.finRange (n + 1)).foldl
    (fun best i => if |coord i - x| < |coord best - x| then i else best) 0

/-- Positional slicing `isel(time=slice(day_offset, day_offset + days))`:
the list of surviving time indices. -/
def timeSlice (nt day_offset days : ℕ) : List (Fin (nt + 1)) :=
  ((List.finRange (nt + 1)).drop day_offset).take days

/-- A Python list comprehension whose body may raise: it fails as a whole if
any entry fails. -/
def decodeAll (f : Int → Option DateTime) : List Int → Option (List DateTime)
  | [] => some []
  | t :: ts =>
    match f t, decodeAll f ts with
    | some x, some xs => some (x :: xs)
    | _, _ => none

/-- `np.datetime64("1970-01-01T00:00:00Z")` in the seconds-since-epoch
representation of the raw time axis. -/
def npEpoch1970 : Int := 0

/-- `get_times`: decode every raw time-axis entry by subtracting the numpy
epoch, converting the time delta to a second count (division by the one-second
time delta), and applying `datetime.utcfromtimestamp`. -/
def get_times {nt ny nx : ℕ} {V : Type} (ds : VarDataset nt ny nx V) :
    Option (List DateTime) :=
  decodeAll (fun dt => datetime_utcfromtimestamp ((dt - npEpoch1970) / 1))
    (List.ofFn ds.time)

/-- `get_scalar_time_series`: slice the time axis positionally, then select the
nearest grid point, using (XG, YC) for `UVEL`/`oceTAUX`, (XC, YG) for
`VVEL`/`oceTAUY`, and (XC, YC) otherwise.  A missing variable name is a lookup
failure (`ds[var]` raises `KeyError`), modelled as `none`. -/
def get_scalar_time_series {nt ny nx : ℕ} {V : Type} (ds : VarDataset nt ny nx V)
    (var : String) (lat lon : ℚ) (day_offset days : ℕ) : Option (List V) :=
  match ds.vars.lookup var with
  | none => none
  | some F =>
    some (if var ∈ (["UVEL", "oceTAUX"] : List String) then
        (timeSlice nt day_offset days).map fun t =>
          F t (nearestIdx ds.YC lat) (nearestIdx ds.XG lon)
      else if var ∈ (["VVEL", "oceTAUY"] : List String) then
        (timeSlice nt day_offset days).map fun t =>
          F t (nearestIdx ds.YG lat) (nearestIdx ds.XC lon)
      else
        (timeSlice nt day_offset days).map fun t =>
          F t (nearestIdx ds.YC lat) (nearestIdx ds.XC lon))

/-- `get_profile_time_series`: the source body is identical to
`get_scalar_time_series` (only the log message differs). -/
def get_profile_time_series {nt ny nx : ℕ} {V : Type} (ds : VarDataset nt ny nx V)
    (var : String) (lat lon : ℚ) (day_offset days : ℕ) : Option (List V) :=
  match ds.vars.lookup var with
  | none => none
  | some F =>
    some (if var ∈ (["UVEL", "oceTAUX"] : List String) then
        (timeSlice nt day_offset days).map fun t =>
          F t (nearestIdx ds.YC lat) (nearestIdx ds.XG lon)
      else if var ∈ (["VVEL", "oceTAUY"] : List String) then
        (timeSlice nt day_offset days).map fun t =>
          F t (nearestIdx ds.YG lat) (nearestIdx ds.XC lon)
      else
        (timeSlice nt day_offset days).map fun t =>
          F t (nearestIdx ds.YC lat) (nearestIdx ds.XC lon))

/-- The X coordinate array that the routing consults for variable `var`
(edge coordinate `XG` for the X-edge variables, center `XC` otherwise). -/
def xCoordFor {nt ny nx : ℕ} {V : Type} (ds : VarDataset nt ny nx V)
    (var : String) : Fin (nx + 1) → ℚ :=
  if var ∈ (["UVEL", "oceTAUX"] : List String) then ds.XG else ds.XC

/-- The Y coordinate array that the routing consults for variable `var`
(edge coordinate `YG` for the Y-edge variables, center `YC` otherwise). -/
def yCoordFor {nt ny nx : ℕ} {V : Type} (ds : VarDataset nt ny nx V)
    (var : String) : Fin (ny + 1) → ℚ :=
  if var ∈ (["VVEL", "oceTAUY"] : List String) then ds.YG else ds.YC

/-! ## Definitions: concrete datasets used to instantiate the theorems -/

/-- A constant one-point variable. -/
def exF : Fin 1 → Fin 1 → Fin 1 → ℚ := fun _ _ _ => 2

/-- A one-point dataset carrying a `UVEL` and an `MLD` variable, with distinct
center and edge coordinates and a one-minute time value. -/
def exDs : VarDataset 0 0 0 ℚ :=
  ⟨[("UVEL", exF), ("MLD", exF)], fun _ => 10, fun _ => 5, fun _ => 20, fun _ => 15,
    fun _ => 60⟩

/-- A dataset whose single 64-bit time value (2⁶² seconds) lies far beyond
Python `datetime`'s supported range. -/
def bigTimeDs : VarDataset 0 0 0 ℚ :=
  ⟨[], fun _ => 0, fun _ => 0, fun _ => 0, fun _ => 0, fun _ => 4611686018427387904⟩

/-! ## Definitions: the 3-D dataset and the geostrophic solver

The merged 3-D dataset (`open_sose_3d_datasets`) carries the four state
variables on their Arakawa C-grid positions — `UVEL` at (Z, YC, XG), `VVEL` at
(Z, YG, XC), `THETA`/`SALT` at (Z, YC, XC) — the vertical and horizontal
coordinate arrays, the MITgcm grid metrics used by the xgcm `metrics` mapping
(`hFac*`/`drF` vertical thickness factors, `dx*`/`dy*` distances, `rA*` areas;
the areas are declared but consulted by none of the operations this function
performs), and `extra`, the fields attached after loading (`ds["name"] = ...`).
Both horizontal axes are index-periodic, as the xgcm grid is declared
`periodic=('X', 'Y')`.  `Wvel` is opened and merged but unused here, so it is
omitted.  Python object mutation is modelled with an explicit store
(`GeoStore`): a list of dataset objects addressed by reference index. -/

structure Dataset3 (nt nz ny nx : ℕ) where
  UVEL : Fin (nt + 1) → Fin (nz + 1) → Fin (ny + 1) → Fin (nx + 1) → ℚ
  VVEL : Fin (nt + 1) → Fin (nz + 1) → Fin (ny + 1) → Fin (nx + 1) → ℚ
  THETA : Fin (nt + 1) → Fin (nz + 1) → Fin (ny + 1) → Fin (nx + 1) → ℚ
  SALT : Fin (nt + 1) → Fin (nz + 1) → Fin (ny + 1) → Fin (nx + 1) → ℚ
  Z : Fin (nz + 1) → ℚ
  Zl : Fin (nz + 1) → ℚ
  XC : Fin (nx + 1) → ℚ
  XG : Fin (nx + 1) → ℚ
  YC : Fin (ny + 1) → ℚ
  YG : Fin (ny + 1) → ℚ
  hFacW : Fin (nz + 1) → Fin (ny + 1) → Fin (nx + 1) → ℚ
  hFacS : Fin (nz + 1) → Fin (ny + 1) → Fin (nx + 1) → ℚ
  hFacC : Fin (nz + 1) → Fin (ny + 1) → Fin (nx + 1) → ℚ
  drF : Fin (nz + 1) → ℚ
  dxC : Fin (ny + 1) → Fin (nx + 1) → ℚ
  dxG : Fin (ny + 1) → Fin (nx + 1) → ℚ
  dyC : Fin (ny + 1) → Fin (nx + 1) → ℚ
  dyG : Fin (ny + 1) → Fin (nx + 1) → ℚ
  rA : Fin (ny + 1) → Fin (nx + 1) → ℚ
  rAs : Fin (ny + 1) → Fin (nx + 1) → ℚ
  rAw : Fin (ny + 1) → Fin (nx + 1) → ℚ
  extra : List (String × (Fin (nz + 1) → Fin (ny + 1) → Fin (nx + 1) → ℚ))

/-- `ds.reindex(Z=ds.Z[::-1], Zl=ds.Zl[::-1])`: a **new** dataset whose
vertical axes, and every field carried on them, are reversed (xarray `reindex`
returns a new object; with pairwise-distinct Z labels, reindexing by the
reversed label arrays is index reversal). -/
def Dataset3.reindexZrev {nt nz ny nx : ℕ} (ds : Dataset3 nt nz ny nx) :
    Dataset3 nt nz ny nx where
  UVEL := fun t k j i => ds.UVEL t k.rev j i
  VVEL := fun t k j i => ds.VVEL t k.rev j i
  THETA := fun t k j i => ds.THETA t k.rev j i
  SALT := fun t k j i => ds.SALT t k.rev j i
  Z := fun k => ds.Z k.rev
  Zl := fun k => ds.Zl k.rev
  XC := ds.XC
  XG := ds.XG
  YC := ds.YC
  YG := ds.YG
  hFacW := fun k j i => ds.hFacW k.rev j i
  hFacS := fun k j i => ds.hFacS k.rev j i
  hFacC := fun k j i => ds.hFacC k.rev j i
  drF := fun k => ds.drF k.rev
  dxC := ds.dxC
  dxG := ds.dxG
  dyC := ds.dyC
  dyG := ds.dyG
  rA := ds.rA
  rAs := ds.rAs
  rAw := ds.rAw
  extra := ds.extra.map fun p => (p.1, fun k j i => p.2 k.rev j i)

/-- `ds["name"] = F`: in-place attachment of a derived field (the object at the
same reference now carries the new field). -/
def Dataset3.setField {nt nz ny nx : ℕ} (ds : Dataset3 nt nz ny nx) (name : String)
    (F : Fin (nz + 1) → Fin (ny + 1) → Fin (nx + 1) → ℚ) : Dataset3 nt nz ny nx :=
  { ds with extra := (name, F) :: ds.extra }

/-- Whether the dataset carries an attached field of this name. -/
def Dataset3.hasField {nt nz ny nx : ℕ} (ds : Dataset3 nt nz ny nx)
    (name : String) : Bool :=
  ds.extra.any fun p => p.1 == name

/-- The derived u-point vertical cell size `ds.hFacW * ds.drF`. -/
def Dataset3.drW {nt nz ny nx : ℕ} (ds : Dataset3 nt nz ny nx) :
    Fin (nz + 1) → Fin (ny + 1) → Fin (nx + 1) → ℚ :=
  fun k j i => ds.hFacW k j i * ds.drF k

/-- The derived v-point vertical cell size `ds.hFacS * ds.drF`. -/
def Dataset3.drS {nt nz ny nx : ℕ} (ds : Dataset3 nt nz ny nx) :
    Fin (nz + 1) → Fin (ny + 1) → Fin (nx + 1) → ℚ :=
  fun k j i => ds.hFacS k j i * ds.drF k

/-- The derived tracer-point vertical cell size `ds.hFacC * ds.drF`. -/
def Dataset3.drC {nt nz ny nx : ℕ} (ds : Dataset3 nt nz ny nx) :
    Fin (nz + 1) → Fin (ny + 1) → Fin (nx + 1) → ℚ :=
  fun k j i => ds.hFacC k j i * ds.drF k

/-- A store of Python dataset objects; a reference is an index into the list. -/
abbrev GeoStore (nt nz ny nx : ℕ) := List (Dataset3 nt nz ny nx)

/-- `grid.derivative(F, 'X')` for a tracer-placed field: the X-periodic
backward difference (to the X-edge position) divided by the matching ('X',)
distance metric `dxC`. -/
def derivX {nz ny nx : ℕ} (dxC : Fin (ny + 1) → Fin (nx + 1) → ℚ)
    (F : Fin (nz + 1) → Fin (ny + 1) → Fin (nx + 1) → ℚ) :
    Fin (nz + 1) → Fin (ny + 1) → Fin (nx + 1) → ℚ :=
  fun k j i => (F k j i - F k j (i - 1)) / dxC j i

/-- `grid.derivative(F, 'Y')` for a tracer-placed field: the Y-periodic
backward difference (to the Y-edge position) divided by the matching ('Y',)
distance metric `dyC`. -/
def derivY {nz ny nx : ℕ} (dyC : Fin (ny + 1) → Fin (nx + 1) → ℚ)
    (F : Fin (nz + 1) → Fin (ny + 1) → Fin (nx + 1) → ℚ) :
    Fin (nz + 1) → Fin (ny + 1) → Fin (nx + 1) → ℚ :=
  fun k j i => (F k j i - F k (j - 1) i) / dyC j i

/-- `grid.cumint(F, 'Z', boundary="extend")`: the cumulative sum of `F · Δz`
along the (already bottom-up-ordered) vertical axis, `Δz` being the ('Z',)
metric matching `F`'s grid position (`drW` for u-point fields, `drS` for
v-point fields).  Entry `k` holds the integral over levels `0..k`. -/
def cumintZ {nz ny nx : ℕ} (dr : Fin (nz + 1) → Fin (ny + 1) → Fin (nx + 1) → ℚ)
    (F : Fin (nz + 1) → Fin (ny + 1) → Fin (nx + 1) → ℚ) :
    Fin (nz + 1) → Fin (ny + 1) → Fin (nx + 1) → ℚ :=
  fun k j i =>
    ((((List.finRange (nz + 1)).take (k.val + 1)).map
      fun kp => F kp j i * dr kp j i).foldl (· + ·) 0)

/-- `compute_geostrophic_velocities`, threading the store of dataset objects
(`r` is the caller's dataset reference; `none` if it dangles).  The local name
`ds` is rebound to the fresh object returned by `reindex`; the three metric
attachments mutate that fresh object in place.  Returns the materialized
(U_geo, V_geo) — a time list of vertical profiles each — and the final store.
`zF` is accepted but unused, as in the source (its use is commented out). -/
def compute_geostrophic_velocities {nt nz ny nx : ℕ}
    (σ : GeoStore nt nz ny nx) (r : ℕ) (lat lon : ℚ) (day_offset days : ℕ)
    (zF : List ℚ) (α β g f : ℚ) :
    Option ((List (Fin (nz + 1) → ℚ) × List (Fin (nz + 1) → ℚ))
      × GeoStore nt nz ny nx) :=
  match σ[r]? with
  | none => none
  | some ds₀ =>
    let ds₁ := ds₀.reindexZrev
    let r₁ := σ.length
    let σ₁ := σ ++ [ds₁]
    let tidx := timeSlice nt day_offset days
    let U := tidx.map ds₁.UVEL
    let V := tidx.map ds₁.VVEL
    let Θ := tidx.map ds₁.THETA
    let S := tidx.map ds₁.SALT
    let ds₂ := ds₁.setField "drW" ds₁.drW
    let σ₂ := σ₁.set r₁ ds₂
    let ds₃ := ds₂.setField "drS" ds₂.drS
    let σ₃ := σ₂.set r₁ ds₃
    let ds₄ := ds₃.setField "drC" ds₃.drC
    let σ₄ := σ₃.set r₁ ds₄
    let cumΘx := (Θ.map (derivX ds₄.dxC)).map (cumintZ ds₄.drW)
    let cumΘy := (Θ.map (derivY ds₄.dyC)).map (cumintZ ds₄.drS)
    let cumSx := (S.map (derivX ds₄.dxC)).map (cumintZ ds₄.drW)
    let cumSy := (S.map (derivY ds₄.dyC)).map (cumintZ ds₄.drS)
    let cumBx := List.zipWith
      (fun p q => fun k j i => g * (α * p k j i - β * q k j i)) cumΘx cumSx
    let cumBy := List.zipWith
      (fun p q => fun k j i => g * (α * p k j i - β * q k j i)) cumΘy cumSy
    let z_bottom := ds₄.Z 0
    let U_d := U.map fun u =>
      u (nearestIdx ds₄.Z z_bottom) (nearestIdx ds₄.YC lat) (nearestIdx ds₄.XG lon)
    let V_d := V.map fun v =>
      v (nearestIdx ds₄.Z z_bottom) (nearestIdx ds₄.YG lat) (nearestIdx ds₄.XC lon)
    let U_geo := List.zipWith
      (fun u w => fun k =>
        u - 1 / f * w k (nearestIdx ds₄.YG lat) (nearestIdx ds₄.XC lon))
      U_d cumBy
    let V_geo := List.zipWith
      (fun v w => fun k =>
        v + 1 / f * w k (nearestIdx ds₄.YC lat) (nearestIdx ds₄.XG lon))
      V_d cumBx
    some ((U_geo, V_geo), σ₄)

/-! ## Definitions: the solver's specification-side formulas -/

/-- The bottom-referenced reference velocity for U: the deepest level
(`Z.values[0]` of the reversed dataset) at the (XG, YC) point nearest to
(lon, lat). -/
def Uref {nt nz ny nx : ℕ} (ds : Dataset3 nt nz ny nx) (lat lon : ℚ)
    (t : Fin (nt + 1)) : ℚ :=
  ds.UVEL t (nearestIdx ds.Z (ds.Z 0)) (nearestIdx ds.YC lat) (nearestIdx ds.XG lon)

/-- The bottom-referenced reference velocity for V, at the (XC, YG) point
nearest to (lon, lat). -/
def Vref {nt nz ny nx : ℕ} (ds : Dataset3 nt nz ny nx) (lat lon : ℚ)
    (t : Fin (nt + 1)) : ℚ :=
  ds.VVEL t (nearestIdx ds.Z (ds.Z 0)) (nearestIdx ds.YG lat) (nearestIdx ds.XC lon)

/-- Σdz ∂Θ/∂x: cumulative bottom-up vertical integral of the zonal temperature
derivative. -/
def cum_dΘdx {nt nz ny nx : ℕ} (ds : Dataset3 nt nz ny nx) (t : Fin (nt + 1)) :
    Fin (nz + 1) → Fin (ny + 1) → Fin (nx + 1) → ℚ :=
  cumintZ ds.drW (derivX ds.dxC (ds.THETA t))

/-- Σdz ∂Θ/∂y. -/
def cum_dΘdy {nt nz ny nx : ℕ} (ds : Dataset3 nt nz ny nx) (t : Fin (nt + 1)) :
    Fin (nz + 1) → Fin (ny + 1) → Fin (nx + 1) → ℚ :=
  cumintZ ds.drS (derivY ds.dyC (ds.THETA t))

/-- Σdz ∂S/∂x. -/
def cum_dSdx {nt nz ny nx : ℕ} (ds : Dataset3 nt nz ny nx) (t : Fin (nt + 1)) :
    Fin (nz + 1) → Fin (ny + 1) → Fin (nx + 1) → ℚ :=
  cumintZ ds.drW (derivX ds.dxC (ds.SALT t))

/-- Σdz ∂S/∂y. -/
def cum_dSdy {nt nz ny nx : ℕ} (ds : Dataset3 nt nz ny nx) (t : Fin (nt + 1)) :
    Fin (nz + 1) → Fin (ny + 1) → Fin (nx + 1) → ℚ :=
  cumintZ ds.drS (derivY ds.dyC (ds.SALT t))

/-- Spec §4.4 step 6: Σ∂B/∂x = g·(α·Σ∂Θ/∂x − β·Σ∂S/∂x) (linear equation of
state). -/
def cum_dBdx {nt nz ny nx : ℕ} (ds : Dataset3 nt nz ny nx) (α β g : ℚ)
    (t : Fin (nt + 1)) : Fin (nz + 1) → Fin (ny + 1) → Fin (nx + 1) → ℚ :=
  fun k j i => g * (α * cum_dΘdx ds t k j i - β * cum_dSdx ds t k j i)

/-- Spec §4.4 step 6: Σ∂B/∂y = g·(α·Σ∂Θ/∂y − β·Σ∂S/∂y). -/
def cum_dBdy {nt nz ny nx : ℕ} (ds : Dataset3 nt nz ny nx) (α β g : ℚ)
    (t : Fin (nt + 1)) : Fin (nz + 1) → Fin (ny + 1) → Fin (nx + 1) → ℚ :=
  fun k j i => g * (α * cum_dΘdy ds t k j i - β * cum_dSdy ds t k j i)

/-- Spec §4.4 step 8: U_geo = U_reference − (1/f)·Σ∂B/∂y, evaluated at the
center-X/edge-Y (XC, YG) nearest point, over the time window. -/
def specUgeo {nt nz ny nx : ℕ} (ds₀ : Dataset3 nt nz ny nx) (lat lon : ℚ)
    (day_offset days : ℕ) (α β g f : ℚ) : List (Fin (nz + 1) → ℚ) :=
  let ds := ds₀.reindexZrev
  (timeSlice nt day_offset days).map fun t => fun k =>
    Uref ds lat lon t
      - 1 / f * cum_dBdy ds α β g t k (nearestIdx ds.YG lat) (nearestIdx ds.XC lon)

/-- Spec §4.4 step 8: V_geo = V_reference + (1/f)·Σ∂B/∂x, evaluated at the
edge-X/center-Y (XG, YC) nearest point, over the time window. -/
def specVgeo {nt nz ny nx : ℕ} (ds₀ : Dataset3 nt nz ny nx) (lat lon : ℚ)
    (day_offset days : ℕ) (α β g f : ℚ) : List (Fin (nz + 1) → ℚ) :=
  let ds := ds₀.reindexZrev
  (timeSlice nt day_offset days).map fun t => fun k =>
    Vref ds lat lon t
      + 1 / f * cum_dBdx ds α β g t k (nearestIdx ds.YC lat) (nearestIdx ds.XG lon)

/-- The reindexed copy of the caller's dataset after the three in-place metric
attachments — the state of the solver's local `ds` object when it returns. -/
def geoAttached {nt nz ny nx : ℕ} (ds₀ : Dataset3 nt nz ny nx) :
    Dataset3 nt nz ny nx :=
  let ds₁ := ds₀.reindexZrev
  let ds₂ := ds₁.setField "drW" ds₁.drW
  let ds₃ := ds₂.setField "drS" ds₂.drS
  ds₃.setField "drC" ds₃.drC

/-- A one-point 3-D dataset with simple constant fields, used to instantiate
the solver theorems. -/
def wDs3 : Dataset3 0 0 0 0 where
  UVEL := fun _ _ _ _ => 3
  VVEL := fun _ _ _ _ => 4
  THETA := fun _ _ _ _ => 5
  SALT := fun _ _ _ _ => 6
  Z := fun _ => -100
  Zl := fun _ => -95
  XC := fun _ => 10
  XG := fun _ => 5
  YC := fun _ => 20
  YG := fun _ => 15
  hFacW := fun _ _ _ => 1
  hFacS := fun _ _ _ => 1
  hFacC := fun _ _ _ => 1
  drF := fun _ => 10
  dxC := fun _ _ => 1
  dxG := fun _ _ => 1
  dyC := fun _ _ => 1
  dyG := fun _ _ => 1
  rA := fun _ _ => 1
  rAs := fun _ _ => 1
  rAw := fun _ _ => 1
  extra := []

/-! ## Supporting lemmas: calendar round trip -/

theorem isLeap_eq_true_iff (y : ℕ) :
    isLeap y = true ↔ (y % 4 = 0 ∧ (y % 100 ≠ 0 ∨ y % 400 = 0)) := by
  simp [isLeap]

set_option maxRecDepth 8000 in
/-- The month/day lookup inverts `daysBeforeMonth`: for any day-of-year in range,
the produced month and day sum back to the day-of-year (finite check). -/
theorem monthDayOfDoy_correct : ∀ n < 366, ∀ leap : Bool,
    daysBeforeMonth leap (monthDayOfDoy leap n).1 + (monthDayOfDoy leap n).2 = n + 1
      ∧ 1 ≤ (monthDayOfDoy leap n).1 ∧ (monthDayOfDoy leap n).1 ≤ 12
      ∧ 1 ≤ (monthDayOfDoy leap n).2 := by
  decide

theorem isLeap_decomp (a b c d : ℕ) (hb : b ≤ 3) (hc : c ≤ 24) (hd : d ≤ 3) :
    isLeap (400 * a + 100 * b + 4 * c + d + 1) = decide (d = 3 ∧ (c ≠ 24 ∨ b = 3)) := by
  unfold isLeap
  exact decide_eq_decide.mpr (by omega)

theorem daysBeforeYear_decomp (a b c d : ℕ) (hb : b ≤ 3) (hc : c ≤ 24) (hd : d ≤ 3) :
    daysBeforeYear (400 * a + 100 * b + 4 * c + d + 1)
      = 146097 * a + 36524 * b + 1461 * c + 365 * d := by
  unfold daysBeforeYear
  omega

/-- Round trip for an explicitly decomposed day count. -/
theorem ymd2ord_ord2ymd_aux (a b c d r : ℕ)
    (hb : b ≤ 4) (hc : c ≤ 24) (hd : d ≤ 4) (hr : r < 365)
    (hb4 : b = 4 → c = 0 ∧ d = 0 ∧ r = 0)
    (hd4 : d = 4 → c ≤ 23 ∧ r = 0)
    (hcap : 36524 * b + 1461 * c + 365 * d + r ≤ 146096)
    (hcap2 : 1461 * c + 365 * d + r ≤ 36523)
    (hcap3 : 365 * d + r ≤ 1460) :
    ymd2ord (ord2ymd (146097 * a + 36524 * b + 1461 * c + 365 * d + r)).1
        (ord2ymd (146097 * a + 36524 * b + 1461 * c + 365 * d + r)).2.1
        (ord2ymd (146097 * a + 36524 * b + 1461 * c + 365 * d + r)).2.2
      = 146097 * a + 36524 * b + 1461 * c + 365 * d + r + 1 := by
  have q1 : (146097 * a + 36524 * b + 1461 * c + 365 * d + r) / 146097 = a := by omega
  have q2 : (146097 * a + 36524 * b + 1461 * c + 365 * d + r) % 146097
      = 36524 * b + 1461 * c + 365 * d + r := by omega
  have q3 : (36524 * b + 1461 * c + 365 * d + r) / 36524 = b := by omega
  have q4 : (36524 * b + 1461 * c + 365 * d + r) % 36524 = 1461 * c + 365 * d + r := by
    omega
  have q5 : (1461 * c + 365 * d + r) / 1461 = c := by omega
  have q6 : (1461 * c + 365 * d + r) % 1461 = 365 * d + r := by omega
  have q7 : (365 * d + r) / 365 = d := by omega
  have q8 : (365 * d + r) % 365 = r := by omega
  simp only [ord2ymd, q1, q2, q3, q4, q5, q6, q7, q8]
  by_cases hcase : d = 4 ∨ b = 4
  · simp only [if_pos hcase]
    unfold ymd2ord
    have hy : 400 * a + 100 * b + 4 * c + d + 1 - 1 = 400 * a + 100 * b + 4 * c + d := by
      omega
    rw [hy]
    have hleap : isLeap (400 * a + 100 * b + 4 * c + d) = true := by
      rw [isLeap_eq_true_iff]
      omega
    rw [hleap]
    rw [show daysBeforeMonth true 12 = 335 from by decide]
    unfold daysBeforeYear
    clear q1 q2 q3 q4 q5 q6 q7 q8 hy hleap
    rcases hcase with hx4 | hx4
    · obtain ⟨hc23, hr0⟩ := hd4 hx4
      subst hx4
      subst hr0
      have hb3 : b ≤ 3 := by omega
      have hv4 : (400 * a + 100 * b + 4 * c + 4 - 1) / 4 = 100 * a + 25 * b + c := by
        omega
      have hv100 : (400 * a + 100 * b + 4 * c + 4 - 1) / 100 = 4 * a + b := by omega
      have hv400 : (400 * a + 100 * b + 4 * c + 4 - 1) / 400 = a := by omega
      rw [hv4, hv100, hv400]
      omega
    · obtain ⟨hc0, hd0, hr0⟩ := hb4 hx4
      subst hx4
      subst hc0
      subst hd0
      subst hr0
      have hv4 : (400 * a + 100 * 4 + 4 * 0 + 0 - 1) / 4 = 100 * a + 99 := by omega
      have hv100 : (400 * a + 100 * 4 + 4 * 0 + 0 - 1) / 100 = 4 * a + 3 := by omega
      have hv400 : (400 * a + 100 * 4 + 4 * 0 + 0 - 1) / 400 = a := by omega
      rw [hv4, hv100, hv400]
      omega
  · simp only [if_neg hcase]
    have hd3 : d ≤ 3 := by omega
    have hb3 : b ≤ 3 := by omega
    have hmd := monthDayOfDoy_correct r (by omega) (decide (d = 3 ∧ (c ≠ 24 ∨ b = 3)))
    unfold ymd2ord
    rw [isLeap_decomp a b c d hb3 hc hd3]
    rw [daysBeforeYear_decomp a b c d hb3 hc hd3]
    clear q1 q2 q3 q4 q5 q6 q7 q8
    omega

/-- Round trip: `ymd2ord` inverts `ord2ymd` (the date of day `n` has ordinal
`n + 1`). -/
theorem ymd2ord_ord2ymd (n : ℕ) :
    ymd2ord (ord2ymd n).1 (ord2ymd n).2.1 (ord2ymd n).2.2 = n + 1 := by
  have h := ymd2ord_ord2ymd_aux (n / 146097) (n % 146097 / 36524)
    (n % 146097 % 36524 / 1461) (n % 146097 % 36524 % 1461 / 365)
    (n % 146097 % 36524 % 1461 % 365)
    (by omega) (by omega) (by omega) (by omega) (by omega) (by omega)
    (by omega) (by omega) (by omega)
  have hn : 146097 * (n / 146097) + 36524 * (n % 146097 / 36524)
      + 1461 * (n % 146097 % 36524 / 1461) + 365 * (n % 146097 % 36524 % 1461 / 365)
      + n % 146097 % 36524 % 1461 % 365 = n := by omega
  rw [hn] at h
  exact h

theorem epochOrdinal_eq : epochOrdinal = 719163 := by decide

/-- Whenever decoding succeeds, the decoded timestamp denotes exactly the
input instant: `utcfromtimestamp` adds the elapsed seconds to the epoch. -/
theorem toEpochSeconds_utcfromtimestamp (t : Int) (x : DateTime)
    (h : datetime_utcfromtimestamp t = some x) : x.toEpochSeconds = t := by
  unfold datetime_utcfromtimestamp at h
  split at h
  case isFalse => exact absurd h (by simp)
  case isTrue hrange =>
    obtain ⟨hmin, hmax⟩ := hrange
    rw [Option.some.injEq] at h
    subst h
    unfold DateTime.toEpochSeconds
    dsimp only
    rw [ymd2ord_ord2ymd ((t / 86400 + (epochOrdinal : Int) - 1).toNat)]
    rw [epochOrdinal_eq]
    rw [show pyMinTs = -62135596800 from by decide] at hmin
    rw [show pyMaxTs = 253402300799 from by decide] at hmax
    omega

theorem utcfromtimestamp_zero : datetime_utcfromtimestamp 0 = some epoch1970 := by
  decide

theorem epoch1970_toEpochSeconds : epoch1970.toEpochSeconds = 0 := by decide

theorem utcfromtimestamp_isSome_of_mem_range (t : Int)
    (h : pyMinTs ≤ t ∧ t ≤ pyMaxTs) : (datetime_utcfromtimestamp t).isSome = true := by
  unfold datetime_utcfromtimestamp
  rw [if_pos h]
  rfl

/-! ## Supporting lemmas: `decodeAll`, `nearestIdx`, routing -/

theorem decodeAll_length (f : Int → Option DateTime) (l : List Int)
    (xs : List DateTime) (h : decodeAll f l = some xs) : xs.length = l.length := by
  induction l generalizing xs with
  | nil =>
    simp only [decodeAll, Option.some.injEq] at h
    subst h
    rfl
  | cons t ts ih =>
    simp only [decodeAll] at h
    rcases hf : f t with _ | x <;> rw [hf] at h
    · exact absurd h (by simp)
    rcases hr : decodeAll f ts with _ | ys <;> rw [hr] at h
    · exact absurd h (by simp)
    rw [Option.some.injEq] at h
    subst h
    simp [ih ys hr]

theorem decodeAll_get (f : Int → Option DateTime) (l : List Int)
    (xs : List DateTime) (h : decodeAll f l = some xs) (i : ℕ) (hi : i < l.length)
    (hxi : i < xs.length) : f (l.get ⟨i, hi⟩) = some (xs.get ⟨i, hxi⟩) := by
  induction l generalizing xs i with
  | nil => exact absurd hi (by simp)
  | cons t ts ih =>
    simp only [decodeAll] at h
    rcases hf : f t with _ | x <;> rw [hf] at h
    · exact absurd h (by simp)
    rcases hr : decodeAll f ts with _ | ys <;> rw [hr] at h
    · exact absurd h (by simp)
    rw [Option.some.injEq] at h
    subst h
    cases i with
    | zero => exact hf
    | succ i =>
      exact ih ys hr i (by simpa using hi) (by simpa using hxi)

theorem decodeAll_isSome (f : Int → Option DateTime) (l : List Int)
    (h : ∀ t ∈ l, (f t).isSome = true) : (decodeAll f l).isSome = true := by
  induction l with
  | nil => rfl
  | cons t ts ih =>
    simp only [decodeAll]
    rcases hf : f t with _ | x
    · exact absurd (hf ▸ h t (by simp)) (by simp)
    rcases hr : decodeAll f ts with _ | ys
    · exact absurd (hr ▸ ih fun u hu => h u (by simp [hu])) (by simp)
    rfl

theorem nearestIdx_min_aux {n : ℕ} (coord : Fin (n + 1) → ℚ) (x : ℚ)
    (l : List (Fin (n + 1))) (b : Fin (n + 1)) :
    |coord (l.foldl (fun best i => if |coord i - x| < |coord best - x| then i else best) b)
        - x| ≤ |coord b - x|
    ∧ ∀ j ∈ l,
        |coord (l.foldl (fun best i => if |coord i - x| < |coord best - x| then i else best) b)
          - x| ≤ |coord j - x| := by
  induction l generalizing b with
  | nil => exact ⟨le_refl _, by simp⟩
  | cons i l ih =>
    simp only [List.foldl_cons]
    by_cases hc : |coord i - x| < |coord b - x|
    · rw [if_pos hc]
      obtain ⟨h1, h2⟩ := ih i
      refine ⟨h1.trans hc.le, fun j hj => ?_⟩
      rcases List.mem_cons.mp hj with rfl | hj
      · exact h1
      · exact h2 j hj
    · rw [if_neg hc]
      obtain ⟨h1, h2⟩ := ih b
      refine ⟨h1, fun j hj => ?_⟩
      rcases List.mem_cons.mp hj with rfl | hj
      · exact h1.trans (le_of_not_lt hc)
      · exact h2 j hj

/-- `nearestIdx` really is a closest grid point: no index has a coordinate
strictly closer to the target. -/
theorem nearestIdx_min {n : ℕ} (coord : Fin (n + 1) → ℚ) (x : ℚ) (j : Fin (n + 1)) :
    |coord (nearestIdx coord x) - x| ≤ |coord j - x| :=
  (nearestIdx_min_aux coord x (List.finRange (n + 1)) 0).2 j (List.mem_finRange j)

/-- Closed form of `get_scalar_time_series` on a present variable: the time
slice mapped through nearest-neighbour selection on the routed coordinates. -/
theorem get_scalar_eq_sel {nt ny nx : ℕ} {V : Type} (ds : VarDataset nt ny nx V)
    (var : String) (lat lon : ℚ) (day_offset days : ℕ)
    (F : Fin (nt + 1) → Fin (ny + 1) → Fin (nx + 1) → V)
    (h : ds.vars.lookup var = some F) :
    get_scalar_time_series ds var lat lon day_offset days
      = some ((timeSlice nt day_offset days).map fun t =>
          F t (nearestIdx (yCoordFor ds var) lat) (nearestIdx (xCoordFor ds var) lon)) := by
  unfold get_scalar_time_series xCoordFor yCoordFor
  rw [h]
  dsimp only
  by_cases h1 : var ∈ (["UVEL", "oceTAUX"] : List String)
  · have h2 : var ∉ (["VVEL", "oceTAUY"] : List String) := by
      intro hmem
      simp only [List.mem_cons, List.not_mem_nil, or_false] at h1 hmem
      rcases h1 with rfl | rfl <;> rcases hmem with heq | heq <;> exact absurd heq (by decide)
    rw [if_pos h1, if_pos h1, if_neg h2]
  · rw [if_neg h1, if_neg h1]
    by_cases h2 : var ∈ (["VVEL", "oceTAUY"] : List String)
    · rw [if_pos h2, if_pos h2]
    · rw [if_neg h2, if_neg h2]

theorem timeSlice_length (nt day_offset days : ℕ) :
    (timeSlice nt day_offset days).length = min days (nt + 1 - day_offset) := by
  simp [timeSlice]

/-! ## Claims about the point extractor -/

/-- C3 (amended): for every dataset, present variable, location and
non-negative `day_offset`/`days`, the returned array's time length equals
`min(days, remaining axis length from day_offset)`, hence is at most `days`;
when `day_offset + days` exceeds the axis length **and `days > 0`** the result
is strictly shorter than requested; no error is raised. -/
theorem claim_C3_time_window_length {nt ny nx : ℕ} {V : Type}
    (ds : VarDataset nt ny nx V) (var : String) (lat lon : ℚ) (day_offset days : ℕ)
    (F : Fin (nt + 1) → Fin (ny + 1) → Fin (nx + 1) → V)
    (h : ds.vars.lookup var = some F) :
    (get_scalar_time_series ds var lat lon day_offset days).map List.length
        = some (min days (nt + 1 - day_offset))
      ∧ min days (nt + 1 - day_offset) ≤ days
      ∧ (0 < days → nt + 1 < day_offset + days →
          min days (nt + 1 - day_offset) < days) := by
  refine ⟨?_, by omega, by omega⟩
  rw [get_scalar_eq_sel ds var lat lon day_offset days F h]
  simp [timeSlice_length]

/-- C3 counterexample: with `days = 0` and `day_offset = 2` past the end of a
length-1 axis the requested window is exceeded (`2 + 0 > 1`), yet the result
(length 0) is *not* shorter than the requested 0 days. -/
theorem claim_C3_counterexample :
    (get_scalar_time_series exDs "MLD" 0 0 2 0).map List.length = some 0
      ∧ 0 + 1 < 2 + 0
      ∧ ¬ ((0 : ℕ) < 0) := by
  refine ⟨by decide, by omega, by omega⟩

/-- C3 witness at a concrete dataset and window. -/
theorem claim_C3_witness :
    exDs.vars.lookup "UVEL" = some exF
      ∧ ((get_scalar_time_series exDs "UVEL" 20 5 0 3).map List.length
            = some (min 3 (0 + 1 - 0))
          ∧ min 3 (0 + 1 - 0) ≤ 3
          ∧ (0 < 3 → 0 + 1 < 0 + 3 → min 3 (0 + 1 - 0) < 3)) :=
  ⟨by decide, claim_C3_time_window_length exDs "UVEL" 20 5 0 3 exF (by decide)⟩

/-- C4: nearest-neighbour selection consults the X-edge/Y-center coordinates
(XG, YC) when the variable is `UVEL` or `oceTAUX`, the X-center/Y-edge
coordinates (XC, YG) when it is `VVEL` or `oceTAUY`, and the center
coordinates (XC, YC) for every other variable name. -/
theorem claim_C4_variable_placement_routing {nt ny nx : ℕ} {V : Type}
    (ds : VarDataset nt ny nx V) (var : String) (lat lon : ℚ) (day_offset days : ℕ)
    (F : Fin (nt + 1) → Fin (ny + 1) → Fin (nx + 1) → V)
    (h : ds.vars.lookup var = some F) :
    get_scalar_time_series ds var lat lon day_offset days
        = some ((timeSlice nt day_offset days).map fun t =>
            F t (nearestIdx (yCoordFor ds var) lat) (nearestIdx (xCoordFor ds var) lon))
      ∧ xCoordFor ds var
          = (if var ∈ (["UVEL", "oceTAUX"] : List String) then ds.XG else ds.XC)
      ∧ yCoordFor ds var
          = (if var ∈ (["VVEL", "oceTAUY"] : List String) then ds.YG else ds.YC) :=
  ⟨get_scalar_eq_sel ds var lat lon day_offset days F h, rfl, rfl⟩

/-- C4 witness at a concrete dataset, for the edge-X variable `UVEL`. -/
theorem claim_C4_witness :
    exDs.vars.lookup "UVEL" = some exF
      ∧ (get_scalar_time_series exDs "UVEL" 0 0 0 1
            = some ((timeSlice 0 0 1).map fun t =>
                exF t (nearestIdx (yCoordFor exDs "UVEL") 0)
                  (nearestIdx (xCoordFor exDs "UVEL") 0))
          ∧ xCoordFor exDs "UVEL"
              = (if "UVEL" ∈ (["UVEL", "oceTAUX"] : List String) then exDs.XG else exDs.XC)
          ∧ yCoordFor exDs "UVEL"
              = (if "UVEL" ∈ (["VVEL", "oceTAUY"] : List String) then exDs.YG else exDs.YC)) :=
  ⟨by decide, claim_C4_variable_placement_routing exDs "UVEL" 0 0 0 1 exF (by decide)⟩

/-- C8: for a present variable, nearest-neighbour selection never errors, even
for out-of-domain targets: it returns the values at a selected grid point, and
that point's routed coordinates are at minimal distance from the requested
latitude and longitude (clamping). -/
theorem claim_C8_nearest_selection_total {nt ny nx : ℕ} {V : Type}
    (ds : VarDataset nt ny nx V) (var : String) (lat lon : ℚ) (day_offset days : ℕ)
    (F : Fin (nt + 1) → Fin (ny + 1) → Fin (nx + 1) → V)
    (h : ds.vars.lookup var = some F) :
    (get_scalar_time_series ds var lat lon day_offset days).isSome = true
      ∧ get_scalar_time_series ds var lat lon day_offset days
          = some ((timeSlice nt day_offset days).map fun t =>
              F t (nearestIdx (yCoordFor ds var) lat) (nearestIdx (xCoordFor ds var) lon))
      ∧ (∀ j, |yCoordFor ds var (nearestIdx (yCoordFor ds var) lat) - lat|
            ≤ |yCoordFor ds var j - lat|)
      ∧ (∀ i, |xCoordFor ds var (nearestIdx (xCoordFor ds var) lon) - lon|
            ≤ |xCoordFor ds var i - lon|) := by
  refine ⟨?_, get_scalar_eq_sel ds var lat lon day_offset days F h,
    fun j => nearestIdx_min _ lat j, fun i => nearestIdx_min _ lon i⟩
  rw [get_scalar_eq_sel ds var lat lon day_offset days F h]
  rfl

/-- C8 witness: a target far outside the one-point grid still selects the
single existing grid point. -/
theorem claim_C8_witness :
    exDs.vars.lookup "MLD" = some exF
      ∧ ((get_scalar_time_series exDs "MLD" 1000 (-1000) 0 1).isSome = true
          ∧ get_scalar_time_series exDs "MLD" 1000 (-1000) 0 1
              = some ((timeSlice 0 0 1).map fun t =>
                  exF t (nearestIdx (yCoordFor exDs "MLD") 1000)
                    (nearestIdx (xCoordFor exDs "MLD") (-1000)))
          ∧ (∀ j, |yCoordFor exDs "MLD" (nearestIdx (yCoordFor exDs "MLD") 1000) - 1000|
                ≤ |yCoordFor exDs "MLD" j - 1000|)
          ∧ (∀ i, |xCoordFor exDs "MLD" (nearestIdx (xCoordFor exDs "MLD") (-1000)) - (-1000)|
                ≤ |xCoordFor exDs "MLD" i - (-1000)|)) :=
  ⟨by decide, claim_C8_nearest_selection_total exDs "MLD" 1000 (-1000) 0 1 exF (by decide)⟩

/-- C10: `get_profile_time_series` and `get_scalar_time_series` are
extensionally equal — their source bodies are identical. -/
theorem claim_C10_profile_equals_scalar {nt ny nx : ℕ} {V : Type}
    (ds : VarDataset nt ny nx V) (var : String) (lat lon : ℚ) (day_offset days : ℕ) :
    get_profile_time_series ds var lat lon day_offset days
      = get_scalar_time_series ds var lat lon day_offset days := rfl

/-! ## Claims about the time decoder -/

/-- C5 (amended): `get_times` succeeds on a raw seconds-since-epoch axis
provided every entry denotes an instant within Python `datetime`'s supported
range (years 1–9999); it then returns one timestamp per axis entry, each
denoting exactly epoch + elapsed, and an elapsed value of 0 seconds decodes to
exactly 1970-01-01T00:00:00Z. -/
theorem claim_C5_get_times_epoch_offsets {nt ny nx : ℕ} {V : Type}
    (ds : VarDataset nt ny nx V)
    (hin : ∀ i : Fin (nt + 1), pyMinTs ≤ ds.time i - npEpoch1970
      ∧ ds.time i - npEpoch1970 ≤ pyMaxTs) :
    (get_times ds).isSome = true
      ∧ (∀ ts, get_times ds = some ts →
          ts.length = nt + 1
            ∧ ∀ (i : ℕ) (hi : i < nt + 1) (hts : i < ts.length),
                (ts.get ⟨i, hts⟩).toEpochSeconds
                  = epoch1970.toEpochSeconds + (ds.time ⟨i, hi⟩ - npEpoch1970))
      ∧ datetime_utcfromtimestamp 0 = some epoch1970 := by
  have hdiv : ∀ u : Int, (u - npEpoch1970) / 1 = u - npEpoch1970 := fun u => by
    unfold npEpoch1970
    omega
  refine ⟨?_, ?_, utcfromtimestamp_zero⟩
  · unfold get_times
    refine decodeAll_isSome _ _ fun u hu => ?_
    obtain ⟨i, rfl⟩ := Set.mem_range.mp ((List.mem_ofFn _ _).mp hu)
    rw [hdiv]
    exact utcfromtimestamp_isSome_of_mem_range _ (hin i)
  · intro ts hts
    unfold get_times at hts
    refine ⟨by rw [decodeAll_length _ _ _ hts, List.length_ofFn], ?_⟩
    intro i hi hlen
    have hget := decodeAll_get _ _ _ hts i (by simpa using hi) hlen
    rw [List.get_ofFn] at hget
    rw [hdiv] at hget
    have := toEpochSeconds_utcfromtimestamp _ _ hget
    rw [this, epoch1970_toEpochSeconds]
    norm_num

/-- C5 witness at a one-entry axis holding 60 elapsed seconds. -/
theorem claim_C5_witness :
    (∀ i : Fin 1, pyMinTs ≤ exDs.time i - npEpoch1970
        ∧ exDs.time i - npEpoch1970 ≤ pyMaxTs)
      ∧ ((get_times exDs).isSome = true
          ∧ (∀ ts, get_times exDs = some ts →
              ts.length = 0 + 1
                ∧ ∀ (i : ℕ) (hi : i < 0 + 1) (hts : i < ts.length),
                    (ts.get ⟨i, hts⟩).toEpochSeconds
                      = epoch1970.toEpochSeconds + (exDs.time ⟨i, hi⟩ - npEpoch1970))
          ∧ datetime_utcfromtimestamp 0 = some epoch1970) :=
  ⟨by decide, claim_C5_get_times_epoch_offsets exDs (by decide)⟩

/-- C5 counterexample: a 64-bit elapsed-seconds value (2⁶² < 2⁶³) on which
`get_times` does not succeed — Python raises because the instant falls outside
`datetime`'s year range. -/
theorem claim_C5_counterexample :
    get_times bigTimeDs = none ∧ (4611686018427387904 : Int) < 2 ^ 63 := by
  refine ⟨by decide, by norm_num⟩

/-- C9: whenever `get_times` succeeds it returns exactly one timestamp per
axis entry, in the original order, and a non-decreasing axis yields a
non-decreasing timestamp sequence. -/
theorem claim_C9_get_times_monotone {nt ny nx : ℕ} {V : Type}
    (ds : VarDataset nt ny nx V) (ts : List DateTime) (h : get_times ds = some ts) :
    ts.length = nt + 1
      ∧ (∀ (i : ℕ) (hi : i < nt + 1) (hts : i < ts.length),
          datetime_utcfromtimestamp ((ds.time ⟨i, hi⟩ - npEpoch1970) / 1)
            = some (ts.get ⟨i, hts⟩))
      ∧ ((∀ i j : Fin (nt + 1), i ≤ j → ds.time i ≤ ds.time j) →
          ts.Pairwise DateTime.le) := by
  unfold get_times at h
  have hlen : ts.length = nt + 1 := by
    rw [decodeAll_length _ _ _ h, List.length_ofFn]
  have hpt : ∀ (i : ℕ) (hi : i < nt + 1) (hts : i < ts.length),
      datetime_utcfromtimestamp ((ds.time ⟨i, hi⟩ - npEpoch1970) / 1)
        = some (ts.get ⟨i, hts⟩) := by
    intro i hi hts
    have hget := decodeAll_get _ _ _ h i (by simpa using hi) hts
    rw [List.get_ofFn] at hget
    exact hget
  refine ⟨hlen, hpt, ?_⟩
  intro hmono
  rw [List.pairwise_iff_get]
  intro i j hij
  unfold DateTime.le
  have hi := toEpochSeconds_utcfromtimestamp _ _
    (hpt i.val (by omega) i.isLt)
  have hj := toEpochSeconds_utcfromtimestamp _ _
    (hpt j.val (by omega) j.isLt)
  have hts_i : ts.get ⟨i.val, i.isLt⟩ = ts.get i := by simp
  have hts_j : ts.get ⟨j.val, j.isLt⟩ = ts.get j := by simp
  rw [hts_i] at hi
  rw [hts_j] at hj
  rw [hi, hj]
  have := hmono ⟨i.val, by omega⟩ ⟨j.val, by omega⟩ (by exact le_of_lt hij)
  unfold npEpoch1970
  omega

/-- C9 witness: a one-entry axis decodes to a singleton, trivially ordered. -/
theorem claim_C9_witness :
    get_times exDs = some [⟨1970, 1, 1, 0, 1, 0⟩]
      ∧ (([⟨1970, 1, 1, 0, 1, 0⟩] : List DateTime).length = 0 + 1
          ∧ (∀ (i : ℕ) (hi : i < 0 + 1)
              (hts : i < ([⟨1970, 1, 1, 0, 1, 0⟩] : List DateTime).length),
              datetime_utcfromtimestamp ((exDs.time ⟨i, hi⟩ - npEpoch1970) / 1)
                = some (([⟨1970, 1, 1, 0, 1, 0⟩] : List DateTime).get ⟨i, hts⟩))
          ∧ ((∀ i j : Fin (0 + 1), i ≤ j → exDs.time i ≤ exDs.time j) →
              ([⟨1970, 1, 1, 0, 1, 0⟩] : List DateTime).Pairwise DateTime.le)) :=
  ⟨by decide, claim_C9_get_times_monotone exDs [⟨1970, 1, 1, 0, 1, 0⟩] (by decide)⟩

/-! ## Supporting lemmas: the geostrophic solver -/

theorem set_append_length {A : Type} (l : List A) (a b : A) :
    (l ++ [a]).set l.length b = l ++ [b] := by
  induction l with
  | nil => rfl
  | cons x xs ih =>
    simp only [List.cons_append, List.length_cons, List.set_cons_succ, ih]

/-- Closed form of the whole pipeline: on a valid reference it returns exactly
the spec-side thermal-wind formulas, and the final store is the input store
extended with the attached reindexed copy. -/
theorem compute_geo_eq {nt nz ny nx : ℕ} (σ : GeoStore nt nz ny nx) (r : ℕ)
    (lat lon : ℚ) (day_offset days : ℕ) (zF : List ℚ) (α β g f : ℚ)
    (ds₀ : Dataset3 nt nz ny nx) (h : σ[r]? = some ds₀) :
    compute_geostrophic_velocities σ r lat lon day_offset days zF α β g f
      = some ((specUgeo ds₀ lat lon day_offset days α β g f,
               specVgeo ds₀ lat lon day_offset days α β g f),
              σ ++ [geoAttached ds₀]) := by
  unfold compute_geostrophic_velocities
  rw [h]
  dsimp only
  rw [set_append_length, set_append_length, set_append_length]
  simp only [specUgeo, specVgeo, geoAttached, cum_dBdx, cum_dBdy, cum_dΘdx, cum_dΘdy,
    cum_dSdx, cum_dSdy, Uref, Vref, List.map_map, List.zipWith_map, List.zipWith_same]
  rfl

/-! ## Claims about the geostrophic solver -/

/-- C1: the solver combines the four cumulative vertical integrals into
buoyancy-gradient integrals by Σ∂B/∂x = g·(α·Σ∂Θ/∂x − β·Σ∂S/∂x) and
Σ∂B/∂y = g·(α·Σ∂Θ/∂y − β·Σ∂S/∂y), and returns
U_geo = U_reference − (1/f)·Σ∂B/∂y evaluated at the center-X/edge-Y (XC, YG)
nearest point and V_geo = V_reference + (1/f)·Σ∂B/∂x evaluated at the
edge-X/center-Y (XG, YC) nearest point, over the requested time window. -/
theorem claim_C1_thermal_wind {nt nz ny nx : ℕ} (σ : GeoStore nt nz ny nx) (r : ℕ)
    (lat lon : ℚ) (day_offset days : ℕ) (zF : List ℚ) (α β g f : ℚ)
    (ds₀ : Dataset3 nt nz ny nx) (h : σ[r]? = some ds₀) :
    (compute_geostrophic_velocities σ r lat lon day_offset days zF α β g f).map
        Prod.fst
      = some (specUgeo ds₀ lat lon day_offset days α β g f,
              specVgeo ds₀ lat lon day_offset days α β g f)
    ∧ (∀ (t : Fin (nt + 1)) k j i, cum_dBdx ds₀.reindexZrev α β g t k j i
        = g * (α * cum_dΘdx ds₀.reindexZrev t k j i
            - β * cum_dSdx ds₀.reindexZrev t k j i))
    ∧ (∀ (t : Fin (nt + 1)) k j i, cum_dBdy ds₀.reindexZrev α β g t k j i
        = g * (α * cum_dΘdy ds₀.reindexZrev t k j i
            - β * cum_dSdy ds₀.reindexZrev t k j i))
    ∧ specUgeo ds₀ lat lon day_offset days α β g f
        = ((timeSlice nt day_offset days).map fun t => fun k =>
            Uref ds₀.reindexZrev lat lon t
              - 1 / f * cum_dBdy ds₀.reindexZrev α β g t k
                  (nearestIdx ds₀.reindexZrev.YG lat) (nearestIdx ds₀.reindexZrev.XC lon))
    ∧ specVgeo ds₀ lat lon day_offset days α β g f
        = ((timeSlice nt day_offset days).map fun t => fun k =>
            Vref ds₀.reindexZrev lat lon t
              + 1 / f * cum_dBdx ds₀.reindexZrev α β g t k
                  (nearestIdx ds₀.reindexZrev.YC lat) (nearestIdx ds₀.reindexZrev.XG lon)) := by
  refine ⟨?_, fun t k j i => rfl, fun t k j i => rfl, rfl, rfl⟩
  rw [compute_geo_eq σ r lat lon day_offset days zF α β g f ds₀ h]
  rfl

/-- C1 witness at a one-point store. -/
theorem claim_C1_witness :
    ([wDs3] : GeoStore 0 0 0 0)[0]? = some wDs3
      ∧ ((compute_geostrophic_velocities [wDs3] 0 21 11 0 2 [] (1/2) (1/3) (98/10)
              (1/10000)).map Prod.fst
          = some (specUgeo wDs3 21 11 0 2 (1/2) (1/3) (98/10) (1/10000),
                  specVgeo wDs3 21 11 0 2 (1/2) (1/3) (98/10) (1/10000))
        ∧ (∀ (t : Fin 1) k j i, cum_dBdx wDs3.reindexZrev (1/2) (1/3) (98/10) t k j i
            = 98/10 * (1/2 * cum_dΘdx wDs3.reindexZrev t k j i
                - 1/3 * cum_dSdx wDs3.reindexZrev t k j i))
        ∧ (∀ (t : Fin 1) k j i, cum_dBdy wDs3.reindexZrev (1/2) (1/3) (98/10) t k j i
            = 98/10 * (1/2 * cum_dΘdy wDs3.reindexZrev t k j i
                - 1/3 * cum_dSdy wDs3.reindexZrev t k j i))
        ∧ specUgeo wDs3 21 11 0 2 (1/2) (1/3) (98/10) (1/10000)
            = ((timeSlice 0 0 2).map fun t => fun k =>
                Uref wDs3.reindexZrev 21 11 t
                  - 1 / (1/10000) * cum_dBdy wDs3.reindexZrev (1/2) (1/3) (98/10) t k
                      (nearestIdx wDs3.reindexZrev.YG 21)
                      (nearestIdx wDs3.reindexZrev.XC 11))
        ∧ specVgeo wDs3 21 11 0 2 (1/2) (1/3) (98/10) (1/10000)
            = ((timeSlice 0 0 2).map fun t => fun k =>
                Vref wDs3.reindexZrev 21 11 t
                  + 1 / (1/10000) * cum_dBdx wDs3.reindexZrev (1/2) (1/3) (98/10) t k
                      (nearestIdx wDs3.reindexZrev.YC 21)
                      (nearestIdx wDs3.reindexZrev.XG 11))) :=
  ⟨rfl, claim_C1_thermal_wind [wDs3] 0 21 11 0 2 [] (1/2) (1/3) (98/10) (1/10000)
    wDs3 rfl⟩

/-- C2: with α = β = 0 (and any g, f ≠ 0) the buoyancy term vanishes and the
returned profiles are exactly the raw bottom-referenced reference velocities,
broadcast over the time window and the vertical axis. -/
theorem claim_C2_zero_expansion {nt nz ny nx : ℕ} (σ : GeoStore nt nz ny nx) (r : ℕ)
    (lat lon : ℚ) (day_offset days : ℕ) (zF : List ℚ) (g f : ℚ)
    (ds₀ : Dataset3 nt nz ny nx) (h : σ[r]? = some ds₀) (hf : f ≠ 0) :
    (compute_geostrophic_velocities σ r lat lon day_offset days zF 0 0 g f).map
        Prod.fst
      = some (((timeSlice nt day_offset days).map fun t => fun _ =>
                Uref ds₀.reindexZrev lat lon t),
              ((timeSlice nt day_offset days).map fun t => fun _ =>
                Vref ds₀.reindexZrev lat lon t)) := by
  rw [compute_geo_eq σ r lat lon day_offset days zF 0 0 g f ds₀ h]
  simp only [Option.map_some']
  refine congrArg some (Prod.ext ?_ ?_)
  · unfold specUgeo
    refine List.map_congr_left fun t ht => ?_
    funext k
    simp [cum_dBdy]
  · unfold specVgeo
    refine List.map_congr_left fun t ht => ?_
    funext k
    simp [cum_dBdx]

/-- C2 witness at a one-point store. -/
theorem claim_C2_witness :
    ([wDs3] : GeoStore 0 0 0 0)[0]? = some wDs3
      ∧ ((1 : ℚ) / 10000 ≠ 0)
      ∧ (compute_geostrophic_velocities [wDs3] 0 21 11 0 2 [] 0 0 (98/10)
            (1/10000)).map Prod.fst
          = some (((timeSlice 0 0 2).map fun t => fun _ =>
                    Uref wDs3.reindexZrev 21 11 t),
                  ((timeSlice 0 0 2).map fun t => fun _ =>
                    Vref wDs3.reindexZrev 21 11 t)) :=
  ⟨rfl, by norm_num,
    claim_C2_zero_expansion [wDs3] 0 21 11 0 2 [] (98/10) (1/10000) wDs3 rfl
      (by norm_num)⟩

/-- C6 (amended): the three vertical-metric fields `drW`/`drS`/`drC` are
attached in place to the **reindexed copy** created inside the call (the local
`ds` object); the dataset object the caller passed in is left unchanged. -/
theorem claim_C6_frame {nt nz ny nx : ℕ} (σ : GeoStore nt nz ny nx) (r : ℕ)
    (lat lon : ℚ) (day_offset days : ℕ) (zF : List ℚ) (α β g f : ℚ)
    (ds₀ : Dataset3 nt nz ny nx) (h : σ[r]? = some ds₀) :
    (compute_geostrophic_velocities σ r lat lon day_offset days zF α β g f).map
        (fun out => (out.2[r]?,
          (out.2[σ.length]?).map fun dsl =>
            (dsl.hasField "drW", dsl.hasField "drS", dsl.hasField "drC")))
      = some (some ds₀, some (true, true, true)) := by
  have hr : r < σ.length := by
    by_contra hc
    rw [List.getElem?_eq_none (by omega)] at h
    exact absurd h (by simp)
  rw [compute_geo_eq σ r lat lon day_offset days zF α β g f ds₀ h]
  simp only [Option.map_some']
  rw [List.getElem?_append_left hr, h, List.getElem?_concat_length]
  simp [Dataset3.hasField, Dataset3.setField, geoAttached]

/-- C6 witness at a one-point store. -/
theorem claim_C6_witness :
    ([wDs3] : GeoStore 0 0 0 0)[0]? = some wDs3
      ∧ (compute_geostrophic_velocities [wDs3] 0 21 11 0 2 [] (1/2) (1/3) (98/10)
            (1/10000)).map
          (fun out => (out.2[0]?,
            (out.2[([wDs3] : GeoStore 0 0 0 0).length]?).map fun dsl =>
              (dsl.hasField "drW", dsl.hasField "drS", dsl.hasField "drC")))
        = some (some wDs3, some (true, true, true)) :=
  ⟨rfl, claim_C6_frame [wDs3] 0 21 11 0 2 [] (1/2) (1/3) (98/10) (1/10000) wDs3 rfl⟩

/-- C6 counterexample: after the call, the caller's dataset object does *not*
carry the attached fields `drW`/`drS`/`drC` — the attachment landed on the
reindexed copy, leaving the caller's object unchanged. -/
theorem claim_C6_counterexample :
    (compute_geostrophic_velocities [wDs3] 0 21 11 0 2 [] (1/2) (1/3) (98/10)
        (1/10000)).map
      (fun out => (out.2[0]?).map fun dsc =>
        (dsc.hasField "drW", dsc.hasField "drS", dsc.hasField "drC"))
      = some (some (false, false, false)) := by
  rw [compute_geo_eq [wDs3] 0 21 11 0 2 [] (1/2) (1/3) (98/10) (1/10000) wDs3 rfl]
  rfl

end SoseData
